import Mathlib

/-!
Shallow embedding of the webhook-transaction-processor core
(`src/app/api/routes.py`, `src/app/services/processor.py`,
`src/app/db/models.py`, `src/app/schemas/transaction.py`).

The Ledger Store is a list of `Transaction` records; the database's
unique constraint on `transaction_id` (models.py line 11) is what makes
`commit` raise `IntegrityError` when a record with the same
`transaction_id` is already stored.  Timestamps are naturals supplied by
the caller (the wall clock), the server-generated primary key is a
natural supplied by the caller, and a Boolean `fault` input injects the
"any other storage failure" case of the spec (an `OperationalError`-like
exception distinct from `IntegrityError`).  Python exceptions are
`Except PyError`.
-/

/-- A row of the `transactions` table (models.py).  `status` is a plain
string, as in the source, so that the closed-enum invariant is a theorem
rather than a typing artifact.  `created_at` models the server default
`func.now()` at insert time; `processed_at` is nullable. -/
structure Transaction where
  id : Nat
  transaction_id : String
  source_account : String
  destination_account : String
  amount : Int
  currency : String
  status : String
  created_at : Nat
  processed_at : Option Nat
deriving DecidableEq, Repr

/-- The inbound webhook body (`TransactionCreate` in schemas/transaction.py). -/
structure Payload where
  transaction_id : String
  source_account : String
  destination_account : String
  amount : Int
  currency : String
deriving DecidableEq, Repr

/-- Python exceptions that the embedded code can raise:
`IntegrityError` (unique-constraint violation at commit), an
`OperationalError`-like storage failure of any other kind, and the
`NameError` raised when an unbound name such as `HTTPException` is
referenced. -/
inductive PyError where
  | integrityError
  | operationalError
  | nameError
deriving DecidableEq, Repr

/-- The `Transaction(...)` constructor call in `receive_webhook`
(routes.py lines 26-33): fields copied from the payload,
`status = "PROCESSING"`, `processed_at` left null, `created_at` filled by
the server default at commit time, `id` by the primary-key default. -/
def mkTransaction (p : Payload) (now nextId : Nat) : Transaction :=
  { id := nextId
    transaction_id := p.transaction_id
    source_account := p.source_account
    destination_account := p.destination_account
    amount := p.amount
    currency := p.currency
    status := "PROCESSING"
    created_at := now
    processed_at := none }

/-- `db.add(txn); db.commit()`: when `fault` injects a non-uniqueness
storage failure the commit raises it; otherwise the unique constraint on
`transaction_id` makes the commit raise `IntegrityError` exactly when a
record with the same `transaction_id` is already stored; otherwise the
row is appended. -/
def commit_insert (store : List Transaction) (txn : Transaction) (fault : Bool) :
    Except PyError (List Transaction) :=
  if fault then .error .operationalError
  else if txn.transaction_id ∈ store.map Transaction.transaction_id then
    .error .integrityError
  else .ok (store ++ [txn])

/-- `receive_webhook` (routes.py lines 20-48).  Returns the acknowledgment
string, the store after the call, and the list of settlement tasks
scheduled by the call (each task holds only a `transaction_id`).  On
`IntegrityError` the session is rolled back (store unchanged), no task is
scheduled, and `{"message": "accepted"}` is still returned; any other
exception propagates out of the handler, with no task scheduled, since
`background_tasks.add_task` runs only after a successful commit. -/
def receive_webhook (store : List Transaction) (p : Payload)
    (now nextId : Nat) (fault : Bool) :
    Except PyError (String × List Transaction × List String) :=
  match commit_insert store (mkTransaction p now nextId) fault with
  | .ok store2 => .ok ("accepted", store2, [p.transaction_id])
  | .error .integrityError => .ok ("accepted", store, [])
  | .error e => .error e

/-- `db.query(Transaction).filter(Transaction.transaction_id == tid).first()`. -/
def find_first (store : List Transaction) (tid : String) : Option Transaction :=
  store.find? (fun t => decide (t.transaction_id = tid))

/-- `get_transaction` (routes.py lines 50-62).  When the record is found
it is returned as a one-element list.  When it is absent the source
executes `raise HTTPException(status_code=404, ...)`, but `HTTPException`
is never imported in routes.py, so what is actually raised is a
`NameError` — an unhandled internal error, not a 404. -/
def get_transaction (store : List Transaction) (tid : String) :
    Except PyError (List Transaction) :=
  match find_first store tid with
  | some txn => .ok [txn]
  | none => .error .nameError

/-- Update the first stored record whose `transaction_id` matches:
`txn.status = "PROCESSED"; txn.processed_at = datetime.utcnow();
db.commit()` acting on the ORM object returned by `.first()`. -/
def mark_first : List Transaction → String → Nat → List Transaction
  | [], _, _ => []
  | t :: ts, tid, now =>
    if t.transaction_id = tid then
      { t with status := "PROCESSED", processed_at := some now } :: ts
    else
      t :: mark_first ts tid now

/-- `process_transaction` (processor.py lines 6-20), at the moment the
30-second sleep has elapsed and a fresh session is open: re-read the
record by `transaction_id`; if present, mark it processed at the current
time `now`; if absent, do nothing. -/
def process_transaction (store : List Transaction) (tid : String) (now : Nat) :
    List Transaction :=
  match find_first store tid with
  | some _ => mark_first store tid now
  | none => store

/-- The two events that mutate the store: an inbound webhook handled by
`receive_webhook`, and a scheduled settlement task running
`process_transaction`. -/
inductive Event where
  | webhook (p : Payload) (now nextId : Nat) (fault : Bool)
  | settle (tid : String) (now : Nat)
deriving DecidableEq, Repr

/-- The store after one event.  A webhook whose insert failed with a
propagated storage error leaves the store unchanged (nothing was
committed). -/
def step (s : List Transaction) : Event → List Transaction
  | .webhook p now nextId fault =>
    match receive_webhook s p now nextId fault with
    | .ok (_, s2, _) => s2
    | .error _ => s
  | .settle tid now => process_transaction s tid now

/-- Store states reachable from the empty store through webhook and
settlement events. -/
def reachable (events : List Event) : List Transaction :=
  events.foldl step []

/-- A concrete webhook payload used to instantiate proved theorems. -/
def samplePayload : Payload :=
  { transaction_id := "tx-1"
    source_account := "A"
    destination_account := "B"
    amount := 1000
    currency := "USD" }

/-- A concrete freshly ingested record used to instantiate proved
theorems. -/
def sampleTxn : Transaction := mkTransaction samplePayload 0 0

/-- A concrete already-settled record used to instantiate proved
theorems. -/
def settledTxn : Transaction :=
  { sampleTxn with status := "PROCESSED", processed_at := some 1 }

/-- A concrete payload carrying the same `transaction_id` as
`samplePayload` but different business fields. -/
def conflictingPayload : Payload :=
  { transaction_id := "tx-1"
    source_account := "C"
    destination_account := "D"
    amount := 999
    currency := "EUR" }

theorem commit_insert_ok (s : List Transaction) (txn : Transaction)
    (h : txn.transaction_id ∉ s.map Transaction.transaction_id) :
    commit_insert s txn false = .ok (s ++ [txn]) := by
  unfold commit_insert
  rw [if_neg Bool.false_ne_true, if_neg h]

theorem commit_insert_dup (s : List Transaction) (txn : Transaction)
    (h : txn.transaction_id ∈ s.map Transaction.transaction_id) :
    commit_insert s txn false = .error .integrityError := by
  unfold commit_insert
  rw [if_neg Bool.false_ne_true, if_pos h]

theorem receive_webhook_inserted (s : List Transaction) (p : Payload)
    (now nextId : Nat)
    (hfresh : p.transaction_id ∉ s.map Transaction.transaction_id) :
    receive_webhook s p now nextId false =
      .ok ("accepted", s ++ [mkTransaction p now nextId], [p.transaction_id]) := by
  unfold receive_webhook
  rw [commit_insert_ok s (mkTransaction p now nextId) hfresh]

theorem receive_webhook_duplicate (s : List Transaction) (p : Payload)
    (now nextId : Nat)
    (hdup : p.transaction_id ∈ s.map Transaction.transaction_id) :
    receive_webhook s p now nextId false = .ok ("accepted", s, []) := by
  unfold receive_webhook
  rw [commit_insert_dup s (mkTransaction p now nextId) hdup]

theorem receive_webhook_fault (s : List Transaction) (p : Payload)
    (now nextId : Nat) :
    receive_webhook s p now nextId true = .error .operationalError := rfl

theorem find_first_of_no_match (s : List Transaction) (tid : String)
    (h : ∀ t ∈ s, t.transaction_id ≠ tid) : find_first s tid = none := by
  simp only [find_first, List.find?_eq_none, decide_eq_true_eq]
  exact h

theorem not_mem_map_iff (s : List Transaction) (tid : String) :
    tid ∉ s.map Transaction.transaction_id ↔ ∀ t ∈ s, t.transaction_id ≠ tid := by
  simp [List.mem_map]

theorem mark_first_of_no_match (s : List Transaction) (tid : String) (now : Nat)
    (h : ∀ t ∈ s, t.transaction_id ≠ tid) : mark_first s tid now = s := by
  induction s with
  | nil => rfl
  | cons t ts ih =>
    have ht := h t (List.mem_cons_self t ts)
    simp only [mark_first, if_neg ht]
    rw [ih (fun x hx => h x (List.mem_cons_of_mem t hx))]

theorem process_eq_mark (s : List Transaction) (tid : String) (now : Nat) :
    process_transaction s tid now = mark_first s tid now := by
  unfold process_transaction
  cases h : find_first s tid with
  | some t => rfl
  | none =>
    have hm : ∀ t ∈ s, t.transaction_id ≠ tid := by
      simpa only [find_first, List.find?_eq_none, decide_eq_true_eq] using h
    rw [mark_first_of_no_match s tid now hm]

theorem mark_first_mark_first (s : List Transaction) (tid : String) (t1 t2 : Nat) :
    mark_first (mark_first s tid t1) tid t2 = mark_first s tid t2 := by
  induction s with
  | nil => rfl
  | cons t ts ih =>
    by_cases h : t.transaction_id = tid
    · simp [mark_first, h]
    · simp only [mark_first, if_neg h]
      rw [ih]

/-- Claim C2: the spec says a lookup of a `transaction_id` that was never
ingested returns an explicit NotFound.  The code instead evaluates
`raise HTTPException(...)` with `HTTPException` unbound in routes.py, so
it raises `NameError` — an unhandled internal error, not a NotFound
signal. -/
theorem c2_unknown_lookup_raises_name_error :
    get_transaction [] "tx-unknown" = .error .nameError := rfl

/-- Claim C4: immediately after an accept call that newly inserted the
payload (no record with its `transaction_id` was stored, no storage
fault), the call returned "accepted" with one scheduled task, and a
lookup of that `transaction_id` finds exactly one record with
`status = "PROCESSING"` and `processed_at = null`. -/
theorem c4_no_premature_settlement (s : List Transaction) (p : Payload)
    (now nextId : Nat)
    (hfresh : p.transaction_id ∉ s.map Transaction.transaction_id) :
    ∃ s1 r,
      receive_webhook s p now nextId false =
        .ok ("accepted", s1, [p.transaction_id]) ∧
      get_transaction s1 p.transaction_id = .ok [r] ∧
      r.status = "PROCESSING" ∧ r.processed_at = none := by
  refine ⟨s ++ [mkTransaction p now nextId], mkTransaction p now nextId,
    ?_, ?_, rfl, rfl⟩
  · exact receive_webhook_inserted s p now nextId hfresh
  · have hm : ∀ t ∈ s, t.transaction_id ≠ p.transaction_id :=
      (not_mem_map_iff s p.transaction_id).mp hfresh
    unfold get_transaction find_first
    rw [List.find?_append]
    rw [show List.find? (fun t => decide (t.transaction_id = p.transaction_id)) s
          = none from find_first_of_no_match s p.transaction_id hm]
    simp [mkTransaction]

/-- Witness for C4 at a concrete payload and the empty store. -/
theorem c4_no_premature_settlement_witness :
    samplePayload.transaction_id ∉
      ([] : List Transaction).map Transaction.transaction_id ∧
    (∃ s1 r,
      receive_webhook [] samplePayload 0 0 false =
        .ok ("accepted", s1, [samplePayload.transaction_id]) ∧
      get_transaction s1 samplePayload.transaction_id = .ok [r] ∧
      r.status = "PROCESSING" ∧ r.processed_at = none) :=
  ⟨by decide, c4_no_premature_settlement [] samplePayload 0 0 (by decide)⟩

/-- Claim C7: a settlement task whose `transaction_id` matches no stored
record completes without raising (the embedded function is total and
takes the silent `None` branch) and leaves the store exactly as it was. -/
theorem c7_settlement_skip (s : List Transaction) (tid : String) (now : Nat)
    (habs : tid ∉ s.map Transaction.transaction_id) :
    process_transaction s tid now = s := by
  rw [process_eq_mark]
  exact mark_first_of_no_match s tid now ((not_mem_map_iff s tid).mp habs)

/-- Witness for C7: settling a missing id over a one-record store. -/
theorem c7_settlement_skip_witness :
    "tx-ghost" ∉ [sampleTxn].map Transaction.transaction_id ∧
    process_transaction [sampleTxn] "tx-ghost" 5 = [sampleTxn] :=
  ⟨by decide, c7_settlement_skip [sampleTxn] "tx-ghost" 5 (by decide)⟩

/-- Counterexample to claim C6 as stated: re-applying the settlement
update at a later time (2) to a record already processed at time 1 does
not reproduce the first application's end state — `processed_at` is
overwritten with the new time, because the code re-stamps
`datetime.utcnow()` unconditionally whenever the record exists. -/
theorem c6_counterexample :
    process_transaction (process_transaction [sampleTxn] "tx-1" 1) "tx-1" 2 ≠
      process_transaction [sampleTxn] "tx-1" 1 := by decide

/-- Claim C6 (amended): re-applying the settlement update raises no error
(the function is total), and produces the state of a single application
at the re-application time: `status` stays `"PROCESSED"` but
`processed_at` is overwritten with the new time, so the operation is
idempotent only when re-applied with the same timestamp (take
`t1 = t2`). -/
theorem c6_mark_processed_reapply (s : List Transaction) (tid : String)
    (t1 t2 : Nat) :
    process_transaction (process_transaction s tid t1) tid t2 =
      process_transaction s tid t2 := by
  rw [process_eq_mark, process_eq_mark, process_eq_mark]
  exact mark_first_mark_first s tid t1 t2

theorem mark_first_append_no_match (s l : List Transaction) (tid : String)
    (now : Nat) (h : ∀ t ∈ s, t.transaction_id ≠ tid) :
    mark_first (s ++ l) tid now = s ++ mark_first l tid now := by
  induction s with
  | nil => rfl
  | cons t ts ih =>
    simp only [List.cons_append, mark_first,
      if_neg (h t (List.mem_cons_self t ts)), List.append_eq]
    rw [ih (fun x hx => h x (List.mem_cons_of_mem t hx))]

/-- Claim C1: two accept calls carrying the same `transaction_id`, the
first over a store with no record for that id and neither hitting a
non-uniqueness storage fault: the first call inserts and schedules
exactly one settlement task, the duplicate call leaves the store as it
was and schedules none, both answer "accepted", and the end store holds
exactly one record for that `transaction_id`. -/
theorem c1_idempotent_ingestion (s : List Transaction) (p1 p2 : Payload)
    (t0 n0 t1 n1 : Nat)
    (hsame : p2.transaction_id = p1.transaction_id)
    (hfresh : p1.transaction_id ∉ s.map Transaction.transaction_id) :
    ∃ s1,
      receive_webhook s p1 t0 n0 false =
        .ok ("accepted", s1, [p1.transaction_id]) ∧
      receive_webhook s1 p2 t1 n1 false = .ok ("accepted", s1, []) ∧
      (s1.filter
        (fun t => decide (t.transaction_id = p1.transaction_id))).length = 1 := by
  refine ⟨s ++ [mkTransaction p1 t0 n0],
    receive_webhook_inserted s p1 t0 n0 hfresh, ?_, ?_⟩
  · apply receive_webhook_duplicate
    rw [hsame]
    simp [mkTransaction]
  · rw [List.filter_append]
    have h1 : s.filter (fun t => decide (t.transaction_id = p1.transaction_id))
        = [] := by
      rw [List.filter_eq_nil_iff]
      intro t ht
      simpa using (not_mem_map_iff s p1.transaction_id).mp hfresh t ht
    rw [h1]
    simp [mkTransaction]

/-- Witness for C1: the concrete payload ingested twice over the empty
store. -/
theorem c1_idempotent_ingestion_witness :
    (samplePayload.transaction_id = samplePayload.transaction_id ∧
     samplePayload.transaction_id ∉
       ([] : List Transaction).map Transaction.transaction_id) ∧
    (∃ s1,
      receive_webhook [] samplePayload 0 0 false =
        .ok ("accepted", s1, [samplePayload.transaction_id]) ∧
      receive_webhook s1 samplePayload 1 1 false = .ok ("accepted", s1, []) ∧
      (s1.filter
        (fun t =>
          decide (t.transaction_id = samplePayload.transaction_id))).length
        = 1) :=
  ⟨⟨rfl, by decide⟩,
    c1_idempotent_ingestion [] samplePayload samplePayload 0 0 1 1 rfl
      (by decide)⟩

/-- Claim C3: a payload newly inserted by accept at time `t0` whose
settlement task then runs at time `t1 ≥ t0`: the subsequent lookup finds
the record with `status = "PROCESSED"`, `processed_at = some t1`
(non-null), and `processed_at ≥ created_at`. -/
theorem c3_eventual_settlement (s : List Transaction) (p : Payload)
    (t0 n0 t1 : Nat)
    (hfresh : p.transaction_id ∉ s.map Transaction.transaction_id)
    (hle : t0 ≤ t1) :
    ∃ s1 r,
      receive_webhook s p t0 n0 false =
        .ok ("accepted", s1, [p.transaction_id]) ∧
      get_transaction (process_transaction s1 p.transaction_id t1)
        p.transaction_id = .ok [r] ∧
      r.status = "PROCESSED" ∧ r.processed_at = some t1 ∧
      r.created_at ≤ t1 := by
  have hm : ∀ t ∈ s, t.transaction_id ≠ p.transaction_id :=
    (not_mem_map_iff s p.transaction_id).mp hfresh
  refine ⟨s ++ [mkTransaction p t0 n0],
    { mkTransaction p t0 n0 with
        status := "PROCESSED", processed_at := some t1 },
    receive_webhook_inserted s p t0 n0 hfresh, ?_, rfl, rfl, hle⟩
  rw [process_eq_mark,
    mark_first_append_no_match s [mkTransaction p t0 n0] p.transaction_id t1 hm]
  have hmark : mark_first [mkTransaction p t0 n0] p.transaction_id t1 =
      [{ mkTransaction p t0 n0 with
          status := "PROCESSED", processed_at := some t1 }] := by
    simp [mark_first, mkTransaction]
  rw [hmark]
  unfold get_transaction find_first
  rw [List.find?_append]
  rw [show List.find? (fun t => decide (t.transaction_id = p.transaction_id)) s
        = none from find_first_of_no_match s p.transaction_id hm]
  simp [mkTransaction]

/-- Witness for C3: the concrete payload accepted at time 0 and settled
at time 30. -/
theorem c3_eventual_settlement_witness :
    (samplePayload.transaction_id ∉
       ([] : List Transaction).map Transaction.transaction_id ∧ 0 ≤ 30) ∧
    (∃ s1 r,
      receive_webhook [] samplePayload 0 0 false =
        .ok ("accepted", s1, [samplePayload.transaction_id]) ∧
      get_transaction (process_transaction s1 samplePayload.transaction_id 30)
        samplePayload.transaction_id = .ok [r] ∧
      r.status = "PROCESSED" ∧ r.processed_at = some 30 ∧
      r.created_at ≤ 30) :=
  ⟨⟨by decide, by decide⟩,
    c3_eventual_settlement [] samplePayload 0 0 30 (by decide) (by decide)⟩

/-- Claim C5: with a record for the payload's `transaction_id` already
stored, the only failure the handler swallows is the uniqueness
violation — the call is acknowledged "accepted" with the store unchanged
and no task scheduled; any other storage failure (`fault = true`)
propagates to the caller as the error itself, so no acknowledgment and
no scheduled task. -/
theorem c5_storage_failure_discrimination (s : List Transaction)
    (p : Payload) (now nextId : Nat)
    (hdup : p.transaction_id ∈ s.map Transaction.transaction_id) :
    receive_webhook s p now nextId false = .ok ("accepted", s, []) ∧
    receive_webhook s p now nextId true = .error .operationalError :=
  ⟨receive_webhook_duplicate s p now nextId hdup, rfl⟩

/-- Witness for C5: the concrete payload over a store already holding its
`transaction_id`. -/
theorem c5_storage_failure_discrimination_witness :
    samplePayload.transaction_id ∈
      [sampleTxn].map Transaction.transaction_id ∧
    (receive_webhook [sampleTxn] samplePayload 1 1 false =
        .ok ("accepted", [sampleTxn], []) ∧
      receive_webhook [sampleTxn] samplePayload 1 1 true =
        .error .operationalError) :=
  ⟨by decide,
    c5_storage_failure_discrimination [sampleTxn] samplePayload 1 1
      (by decide)⟩

/-- Claim C10: accept called with a payload whose `transaction_id` is
already stored but whose other fields differ from the stored record: the
call is acknowledged "accepted", the store is returned unchanged (the
stored record keeps the first payload's values and no new record
appears), no task is scheduled, and no error is raised. -/
theorem c10_conflicting_duplicate (s : List Transaction) (p : Payload)
    (now nextId : Nat) (t : Transaction) (ht : t ∈ s)
    (htid : t.transaction_id = p.transaction_id)
    (hdiff : p.source_account ≠ t.source_account ∨
      p.destination_account ≠ t.destination_account ∨
      p.amount ≠ t.amount ∨ p.currency ≠ t.currency) :
    receive_webhook s p now nextId false = .ok ("accepted", s, []) :=
  receive_webhook_duplicate s p now nextId (List.mem_map.mpr ⟨t, ht, htid⟩)

/-- Witness for C10: a payload that reuses `transaction_id` "tx-1" with
every other field changed, over the store holding the first record. -/
theorem c10_conflicting_duplicate_witness :
    (sampleTxn ∈ [sampleTxn] ∧
     sampleTxn.transaction_id = conflictingPayload.transaction_id ∧
     (conflictingPayload.source_account ≠ sampleTxn.source_account ∨
      conflictingPayload.destination_account ≠
        sampleTxn.destination_account ∨
      conflictingPayload.amount ≠ sampleTxn.amount ∨
      conflictingPayload.currency ≠ sampleTxn.currency)) ∧
    receive_webhook [sampleTxn] conflictingPayload 7 7 false =
      .ok ("accepted", [sampleTxn], []) :=
  ⟨⟨by decide, by decide, by decide⟩,
    c10_conflicting_duplicate [sampleTxn] conflictingPayload 7 7 sampleTxn
      (by decide) (by decide) (by decide)⟩

theorem mark_first_length (s : List Transaction) (tid : String) (now : Nat) :
    (mark_first s tid now).length = s.length := by
  induction s with
  | nil => rfl
  | cons t ts ih =>
    by_cases h : t.transaction_id = tid
    · simp [mark_first, h]
    · simp [mark_first, h, ih]

theorem mark_first_getD (s : List Transaction) (tid : String) (now : Nat)
    (i : Nat) (d : Transaction) :
    (mark_first s tid now).getD i d = s.getD i d ∨
    ((s.getD i d).transaction_id = tid ∧
     (mark_first s tid now).getD i d =
       { s.getD i d with status := "PROCESSED", processed_at := some now }) := by
  induction s generalizing i with
  | nil => left; rfl
  | cons t ts ih =>
    by_cases h : t.transaction_id = tid
    · cases i with
      | zero =>
        right
        refine ⟨by simpa using h, ?_⟩
        simp [mark_first, h]
      | succ n =>
        left
        simp [mark_first, h]
    · cases i with
      | zero =>
        left
        simp [mark_first, h]
      | succ n =>
        have := ih n
        simpa [mark_first, h] using this

theorem mem_mark_first (s : List Transaction) (tid : String) (now : Nat)
    (t : Transaction) (h : t ∈ mark_first s tid now) :
    t ∈ s ∨ t.status = "PROCESSED" := by
  induction s with
  | nil => simp [mark_first] at h
  | cons x xs ih =>
    by_cases hx : x.transaction_id = tid
    · simp only [mark_first, if_pos hx, List.mem_cons] at h
      rcases h with h | h
      · right; rw [h]
      · left; exact List.mem_cons_of_mem x h
    · simp only [mark_first, if_neg hx, List.mem_cons] at h
      rcases h with h | h
      · left; rw [h]; exact List.mem_cons_self x xs
      · rcases ih h with h2 | h2
        · left; exact List.mem_cons_of_mem x h2
        · right; exact h2

theorem step_status_closed (s : List Transaction) (e : Event)
    (hs : ∀ t ∈ s, t.status = "PROCESSING" ∨ t.status = "PROCESSED") :
    ∀ t ∈ step s e, t.status = "PROCESSING" ∨ t.status = "PROCESSED" := by
  intro t ht
  cases e with
  | settle tid now =>
    simp only [step] at ht
    rw [process_eq_mark] at ht
    rcases mem_mark_first s tid now t ht with h | h
    · exact hs t h
    · right; exact h
  | webhook p now nextId fault =>
    simp only [step] at ht
    cases fault with
    | true =>
      rw [receive_webhook_fault] at ht
      exact hs t ht
    | false =>
      by_cases hdup : p.transaction_id ∈ s.map Transaction.transaction_id
      · rw [receive_webhook_duplicate s p now nextId hdup] at ht
        exact hs t ht
      · rw [receive_webhook_inserted s p now nextId hdup] at ht
        simp only [List.mem_append, List.mem_singleton] at ht
        rcases ht with h | h
        · exact hs t h
        · left; rw [h]; rfl

theorem foldl_step_status (events : List Event) :
    ∀ s, (∀ t ∈ s, t.status = "PROCESSING" ∨ t.status = "PROCESSED") →
      ∀ t ∈ events.foldl step s,
        t.status = "PROCESSING" ∨ t.status = "PROCESSED" := by
  induction events with
  | nil => intro s hs; simpa using hs
  | cons e es ih =>
    intro s hs
    simp only [List.foldl_cons]
    exact ih (step s e) (step_status_closed s e hs)

theorem step_status_monotone (s : List Transaction) (e : Event) (i : Nat)
    (d : Transaction) (hi : i < s.length)
    (hp : (s.getD i d).status = "PROCESSED") :
    i < (step s e).length ∧ ((step s e).getD i d).status = "PROCESSED" := by
  cases e with
  | settle tid now =>
    simp only [step]
    rw [process_eq_mark]
    refine ⟨by rw [mark_first_length]; exact hi, ?_⟩
    rcases mark_first_getD s tid now i d with h | ⟨_, h⟩
    · rw [h]; exact hp
    · rw [h]
  | webhook p now nextId fault =>
    simp only [step]
    cases fault with
    | true =>
      rw [receive_webhook_fault]
      exact ⟨hi, hp⟩
    | false =>
      by_cases hdup : p.transaction_id ∈ s.map Transaction.transaction_id
      · rw [receive_webhook_duplicate s p now nextId hdup]
        exact ⟨hi, hp⟩
      · rw [receive_webhook_inserted s p now nextId hdup]
        refine ⟨?_, ?_⟩
        · rw [List.length_append]
          exact Nat.lt_of_lt_of_le hi (Nat.le_add_right _ _)
        · rw [List.getD_append _ _ _ _ hi]
          exact hp

/-- Claim C8: in every store reachable from the empty store through
webhook and settlement events, each record's status is `"PROCESSING"` or
`"PROCESSED"`; and no single event moves a record at any position from
`"PROCESSED"` to anything else — the record survives the step and stays
`"PROCESSED"`. -/
theorem c8_status_closed_and_monotone :
    (∀ events : List Event, ∀ t ∈ reachable events,
       t.status = "PROCESSING" ∨ t.status = "PROCESSED") ∧
    (∀ (s : List Transaction) (e : Event) (i : Nat) (d : Transaction),
       i < s.length → (s.getD i d).status = "PROCESSED" →
       i < (step s e).length ∧
       ((step s e).getD i d).status = "PROCESSED") :=
  ⟨fun events => foldl_step_status events [] (by simp), step_status_monotone⟩

/-- Witness for C8: the record produced by one accepted webhook has a
legal status, and a settled record survives a further settlement event
for another id with its `"PROCESSED"` status intact. -/
theorem c8_status_closed_and_monotone_witness :
    (sampleTxn ∈ reachable [Event.webhook samplePayload 0 0 false] ∧
     (sampleTxn.status = "PROCESSING" ∨ sampleTxn.status = "PROCESSED")) ∧
    (0 < [settledTxn].length ∧
     ([settledTxn].getD 0 sampleTxn).status = "PROCESSED" ∧
     (0 < (step [settledTxn] (Event.settle "tx-zzz" 9)).length ∧
      ((step [settledTxn] (Event.settle "tx-zzz" 9)).getD 0
        sampleTxn).status = "PROCESSED")) :=
  ⟨⟨by decide,
    c8_status_closed_and_monotone.1 [Event.webhook samplePayload 0 0 false]
      sampleTxn (by decide)⟩,
   by decide, by decide,
   c8_status_closed_and_monotone.2 [settledTxn] (Event.settle "tx-zzz" 9) 0
     sampleTxn (by decide) (by decide)⟩

/-- Claim C9: one settlement run touches at most the status and
`processed_at` of records matching its `transaction_id`: the store keeps
its length (no record deleted), the record at every position keeps its
`id`, `transaction_id`, `source_account`, `destination_account`,
`amount`, `currency` and `created_at`, and every record whose
`transaction_id` differs from the task's is entirely unchanged. -/
theorem c9_settlement_frame (s : List Transaction) (tid : String)
    (now : Nat) (i : Nat) (d : Transaction) :
    (process_transaction s tid now).length = s.length ∧
    (((process_transaction s tid now).getD i d).id = (s.getD i d).id ∧
     ((process_transaction s tid now).getD i d).transaction_id =
       (s.getD i d).transaction_id ∧
     ((process_transaction s tid now).getD i d).source_account =
       (s.getD i d).source_account ∧
     ((process_transaction s tid now).getD i d).destination_account =
       (s.getD i d).destination_account ∧
     ((process_transaction s tid now).getD i d).amount =
       (s.getD i d).amount ∧
     ((process_transaction s tid now).getD i d).currency =
       (s.getD i d).currency ∧
     ((process_transaction s tid now).getD i d).created_at =
       (s.getD i d).created_at) ∧
    ((s.getD i d).transaction_id ≠ tid →
      (process_transaction s tid now).getD i d = s.getD i d) := by
  rw [process_eq_mark]
  refine ⟨mark_first_length s tid now, ?_, ?_⟩
  · rcases mark_first_getD s tid now i d with h | ⟨_, h⟩
    · rw [h]
      exact ⟨rfl, rfl, rfl, rfl, rfl, rfl, rfl⟩
    · rw [h]
      exact ⟨rfl, rfl, rfl, rfl, rfl, rfl, rfl⟩
  · intro hne
    rcases mark_first_getD s tid now i d with h | ⟨htid, h⟩
    · exact h
    · exact absurd htid hne

/-- Witness for C9: a settlement run for an id not present in the store
leaves the sole record untouched. -/
theorem c9_settlement_frame_witness :
    ([sampleTxn].getD 0 settledTxn).transaction_id ≠ "tx-ghost" ∧
    (process_transaction [sampleTxn] "tx-ghost" 3).getD 0 settledTxn =
      [sampleTxn].getD 0 settledTxn :=
  ⟨by decide,
    (c9_settlement_frame [sampleTxn] "tx-ghost" 3 0 settledTxn).2.2
      (by decide)⟩
